import Mathlib

/-!
Verification development for the citibike_2022 dashboard repository.

The two source files, dashboard.py and dashboard_part2.py, contain a daily
weather/trips series loader (load_daily, load_daily_small), a streaming
station-popularity aggregator (compute_top20_stations), a precomputed station
table loader (load_stations_small), and caller sections that guard each loader
with a file-existence check.

The embedding below models pandas dataframes as Lean lists and records:
  - a daily-series frame is a list of rows plus Booleans recording which
    optional columns (TMAX, TMIN, TMEAN) exist in the CSV header; a missing
    cell inside an existing column (a NaN) is an Option that is none;
  - temperature and trip values are rationals (the claims under scrutiny are
    about exact unit conversions and means, not float rounding);
  - a Python function that can let an exception escape is modelled with
    PyResult: `val a` is a normal return, `raised e` is an uncaught exception
    propagating to the caller;
  - pandas sort_values(ascending=False) computes an ascending argsort and
    then reverses the indexer (pandas nargsort); on the small arrays used in
    the concrete evaluations numpy's sort is its stable insertion sort, so the
    ascending pass is modelled by a stable insertion sort and the descending
    result by its reversal.
-/

namespace Citibike

/-- Python exceptions raised by the modelled pandas operations:
FileNotFoundError from read_csv on a missing path, KeyError from indexing a
frame with an absent column label, ValueError from read_csv when usecols
names a column absent from the header. -/
inductive PyError where
  | fileNotFoundError
  | keyError
  | valueError
deriving DecidableEq

/-- Result of running a Python function: a returned value, or an uncaught
exception propagating out of the function (the function raises; it does not
hand its caller an error value). -/
inductive PyResult (α : Type) where
  | val : α → PyResult α
  | raised : PyError → PyResult α
deriving DecidableEq

/-- One row of the daily series CSV: a parsed date, a trips total, and the
three optional temperature cells (none models a NaN cell). -/
structure DailyRow where
  date : Int
  trips : ℚ
  tmax : Option ℚ
  tmin : Option ℚ
  tmean : Option ℚ
deriving DecidableEq

/-- A parsed daily-series dataframe: its rows plus which optional columns
exist in the header. A column that does not exist has no cells at all, which
is distinct from an existing column whose cells are NaN. -/
structure DailyDF where
  rows : List DailyRow
  hasTmax : Bool
  hasTmin : Bool
  hasTmean : Bool
deriving DecidableEq

/-- The TMAX column of a row list. -/
def colTmax (rows : List DailyRow) : List (Option ℚ) :=
  rows.map (fun r => r.tmax)

/-- The TMIN column of a row list. -/
def colTmin (rows : List DailyRow) : List (Option ℚ) :=
  rows.map (fun r => r.tmin)

/-- The TMEAN column of a row list. -/
def colTmean (rows : List DailyRow) : List (Option ℚ) :=
  rows.map (fun r => r.tmean)

/-- The date column of a row list. -/
def colDate (rows : List DailyRow) : List Int :=
  rows.map (fun r => r.date)

/-- Row order on dates, for sort_values("date"). -/
def dateLe (a b : DailyRow) : Prop := a.date ≤ b.date

instance : DecidableRel dateLe := fun a b => Int.decLe a.date b.date

instance : IsTotal DailyRow dateLe := ⟨fun a b => Int.le_total a.date b.date⟩

instance : IsTrans DailyRow dateLe := ⟨fun _ _ _ h h2 => Int.le_trans h h2⟩

/-- df.sort_values("date") of dashboard.py line 29: sort rows ascending by
date. (pandas' tie order among equal dates is an accepted ambiguity; the
claims only concern the ascending order, which any argsort produces.) -/
def sortByDate (rows : List DailyRow) : List DailyRow :=
  List.insertionSort dateLe rows

/-- pandas Series.abs().max() over a column: the maximum absolute value of
the non-NaN cells, none when every cell is NaN (pandas then returns NaN, and
the comparison NaN > 200 is False). -/
def maxAbsOpt (col : List (Option ℚ)) : Option ℚ :=
  col.foldl
    (fun acc c =>
      match acc, c with
      | none, none => none
      | none, some x => some |x|
      | some m, none => some m
      | some m, some x => some (max m |x|))
    none

/-- The unit-repair test of dashboard.py line 32: df[c].abs().max() > 200. -/
def needsRepair (col : List (Option ℚ)) : Bool :=
  match maxAbsOpt col with
  | some m => decide (200 < m)
  | none => false

/-- pandas df[["TMAX","TMIN"]].mean(axis=1) on a single row: the mean of the
non-NaN entries (skipna is True by default), NaN only when both entries are
NaN. -/
def rowMean : Option ℚ → Option ℚ → Option ℚ
  | some a, some b => some ((a + b) / 2)
  | some a, none => some a
  | none, some b => some b
  | none, none => none

/-- The c = "TMAX" pass of the loop at dashboard.py lines 31-33: if the
column exists and its max abs exceeds 200, divide every cell of that column
by 10, otherwise leave the rows untouched. -/
def repairTmax (hasTmax : Bool) (rows : List DailyRow) : List DailyRow :=
  if hasTmax && needsRepair (colTmax rows) then
    rows.map (fun r => { r with tmax := r.tmax.map (fun x => x / 10) })
  else rows

/-- The c = "TMIN" pass of the same loop, run on the rows the TMAX pass
produced. -/
def repairTmin (hasTmin : Bool) (rows : List DailyRow) : List DailyRow :=
  if hasTmin && needsRepair (colTmin rows) then
    rows.map (fun r => { r with tmin := r.tmin.map (fun x => x / 10) })
  else rows

/-- dashboard.py load_daily (lines 27-35), applied to the frame that
pd.read_csv parsed: sort ascending by date; run the per-column unit-repair
loop over TMAX then TMIN; finally assign
TMEAN = df[["TMAX","TMIN"]].mean(axis=1) unconditionally, overwriting any
pre-supplied TMEAN column. The final assignment indexes the frame with both
labels, so it raises KeyError when either column is absent from the
header. -/
def load_daily (df : DailyDF) : PyResult DailyDF :=
  let r3 := repairTmin df.hasTmin (repairTmax df.hasTmax (sortByDate df.rows))
  if df.hasTmax && df.hasTmin then
    PyResult.val
      ⟨r3.map (fun r => { r with tmean := rowMean r.tmax r.tmin }),
        df.hasTmax, df.hasTmin, true⟩
  else
    PyResult.raised PyError.keyError

/-- The joint check of dashboard_part2.py line 26:
df[["TMAX","TMIN"]].abs().max().max() > 200, i.e. the max abs over the cells
of both columns together (NaN-skipping at both levels). -/
def jointNeedsRepair (rows : List DailyRow) : Bool :=
  needsRepair (colTmax rows ++ colTmin rows)

/-- dashboard_part2.py load_daily_small (lines 22-27): only when no TMEAN
column exists and both TMAX and TMIN columns do, derive TMEAN as the row mean
of TMAX and TMIN, divided by 10 when the joint max abs of the two columns
exceeds 200. The TMAX and TMIN columns themselves are never altered, the rows
are never sorted, and no exception can be raised (every column access is
guarded by the header test). -/
def load_daily_small (df : DailyDF) : DailyDF :=
  if !df.hasTmean && df.hasTmax && df.hasTmin then
    if jointNeedsRepair df.rows then
      ⟨df.rows.map
          (fun r => { r with tmean := (rowMean r.tmax r.tmin).map (fun x => x / 10) }),
        df.hasTmax, df.hasTmin, true⟩
    else
      ⟨df.rows.map (fun r => { r with tmean := rowMean r.tmax r.tmin }),
        df.hasTmax, df.hasTmin, true⟩
  else df

/-- pd.read_csv at the filesystem level followed by load_daily: pandas raises
FileNotFoundError when the path does not exist, and load_daily does not catch
it. A filesystem is a map from paths to the parsed frame stored there. -/
def load_daily_fs (fs : String → Option DailyDF) (path : String) :
    PyResult DailyDF :=
  match fs path with
  | none => PyResult.raised PyError.fileNotFoundError
  | some df => load_daily df

/-- A precomputed station table (dashboard_part2.py): rows of station name
and ride count. -/
abbrev Tally := List (String × Nat)

/-- dashboard_part2.py load_stations_small (lines 30-31): a bare pd.read_csv,
raising FileNotFoundError on a missing path. -/
def load_stations_small (fs : String → Option Tally) (path : String) :
    PyResult Tally :=
  match fs path with
  | none => PyResult.raised PyError.fileNotFoundError
  | some t => PyResult.val t

/-- What a guarded dashboard section renders: an informational placeholder
when the source file is absent, or content built from the loaded data. -/
inductive SectionView (α : Type) where
  | info : SectionView α
  | content : α → SectionView α
deriving DecidableEq

/-- dashboard.py lines 86-89: the dual-axis section first tests
DAILY_FILE.exists(); if the file is missing it renders an info placeholder
and never calls the loader, otherwise it calls load_daily on the file. -/
def dualAxisSection (fs : String → Option DailyDF) (path : String) :
    PyResult (SectionView DailyDF) :=
  match fs path with
  | none => PyResult.val SectionView.info
  | some _ =>
    match load_daily_fs fs path with
    | PyResult.val df => PyResult.val (SectionView.content df)
    | PyResult.raised e => PyResult.raised e

/-- dashboard_part2.py lines 105-108: the top-stations page first tests
STATIONS_SMALL.exists(); if the file is missing it renders an info
placeholder, otherwise it loads the table and keeps its first top_n rows. -/
def topStationsSection (fs : String → Option Tally) (path : String)
    (topN : Nat) : PyResult (SectionView Tally) :=
  match fs path with
  | none => PyResult.val SectionView.info
  | some _ =>
    match load_stations_small fs path with
    | PyResult.val t => PyResult.val (SectionView.content (t.take topN))
    | PyResult.raised e => PyResult.raised e

/-- A trip-record CSV file for compute_top20_stations: whether its header
has the start_station_name column, and its rows split into the chunks that
pd.read_csv(chunksize=200000) yields (a none row models a null station
name). -/
structure CsvFile where
  hasStationCol : Bool
  chunks : List (List (Option String))
deriving DecidableEq

/-- Number of trips in a chunk starting at station k (null rows never match
a concrete name, so they are ignored, matching value_counts(dropna=True)). -/
def countOcc (k : String) (chunk : List (Option String)) : Nat :=
  chunk.count (some k)

/-- Ascending order on ride counts, for the ascending argsort that pandas
sort_values performs before reversing. -/
def countLe (a b : String × Nat) : Prop := a.2 ≤ b.2

instance : DecidableRel countLe := fun a b => Nat.decLe a.2 b.2

instance : IsTotal (String × Nat) countLe := ⟨fun a b => Nat.le_total a.2 b.2⟩

instance : IsTrans (String × Nat) countLe := ⟨fun _ _ _ h h2 => Nat.le_trans h h2⟩

/-- pandas Series.sort_values(ascending=False): an ascending argsort whose
indexer is then reversed (pandas nargsort). The ascending pass is modelled by
a stable insertion sort, which agrees with numpy on the small arrays the
concrete evaluations below use. -/
def sortDesc (t : Tally) : Tally :=
  (List.insertionSort countLe t).reverse

/-- chunk["start_station_name"].value_counts(dropna=True) of dashboard.py
line 44: the distinct non-null names of the chunk with their occurrence
counts, sorted by count descending. -/
def valueCounts (chunk : List (Option String)) : Tally :=
  sortDesc (((chunk.filterMap id).dedup).map (fun k => (k, countOcc k chunk)))

/-- counts[k] = counts.get(k, 0) + v of dashboard.py line 46: add v to the
entry of k, appending a new entry at the end on first encounter (Python dict
insertion order). -/
def bump : Tally → String → Nat → Tally
  | [], k, v => [(k, v)]
  | (k1, v1) :: rest, k, v =>
    if k1 = k then (k1, v1 + v) :: rest else (k1, v1) :: bump rest k v

/-- dashboard.py lines 45-46: fold one chunk's value_counts into the running
dict. -/
def mergeTally (acc : Tally) (vc : Tally) : Tally :=
  vc.foldl (fun a p => bump a p.1 p.2) acc

/-- dashboard.py lines 43-46 for one file: merge every chunk's tally into
the running dict in sequence. -/
def mergeChunksInto (acc : Tally) (chunks : List (List (Option String))) :
    Tally :=
  chunks.foldl (fun a c => mergeTally a (valueCounts c)) acc

/-- dashboard.py lines 42-46: accumulate the running dict across the files.
pd.read_csv(f, usecols=["start_station_name"], chunksize=...) parses the
header when the reader is constructed and raises ValueError if the column is
absent, before any chunk of that file is read; the exception escapes
compute_top20_stations uncaught. -/
def accumFiles : List CsvFile → Tally → PyResult Tally
  | [], acc => PyResult.val acc
  | f :: fs, acc =>
    if f.hasStationCol then
      accumFiles fs (mergeChunksInto acc f.chunks)
    else
      PyResult.raised PyError.valueError

/-- The full descending ranking of a merged tally (dashboard.py lines 47-48
without the truncation): pd.Series(counts).sort_values(ascending=False). -/
def rankStations (counts : Tally) : Tally :=
  sortDesc counts

/-- Truncation of the ranking to its top k entries (.head(k)). -/
def topK (counts : Tally) (k : Nat) : Tally :=
  (rankStations counts).take k

/-- dashboard.py compute_top20_stations (lines 38-52): the merged dict,
ranked descending by count and truncated to 20 entries. -/
def compute_top20_stations (files : List CsvFile) : PyResult Tally :=
  match accumFiles files [] with
  | PyResult.val counts => PyResult.val ((sortDesc counts).take 20)
  | PyResult.raised e => PyResult.raised e

/-- dashboard.py line 66: the caller truncates the returned table to the
slider value with .head(show_top_n). -/
def show_top_n (stations : Tally) (n : Nat) : Tally :=
  stations.take n

/-- The ride count a tally assigns to station k: the sum of the counts of
its entries with that key (0 when absent). Tallies built by bump have
distinct keys, so this is the mapping the dict represents. -/
def lookupCount : Tally → String → Nat
  | [], _ => 0
  | (k1, v1) :: rest, k => (if k1 = k then v1 else 0) + lookupCount rest k

/-! ### Concrete frames used in counterexamples and witnesses -/

/-- A frame whose TMAX column (max abs 210) needs the unit repair while its
TMIN column (max abs 50) does not. -/
def dfRepair : DailyDF := ⟨[⟨0, 0, some 210, some 50, none⟩], true, true, false⟩

/-- load_daily dfRepair: TMAX divided by 10, TMIN untouched,
TMEAN = (21 + 50) / 2. -/
def dfRepairOut : DailyDF :=
  ⟨[⟨0, 0, some 21, some 50, some (71 / 2)⟩], true, true, true⟩

/-- A frame with one row whose TMIN cell is NaN while TMAX is present (both
columns exist in the header). -/
def dfSkipna : DailyDF := ⟨[⟨0, 0, some 10, none, none⟩], true, true, false⟩

/-- load_daily dfSkipna: the skipna row mean equals the present value. -/
def dfSkipnaOut : DailyDF := ⟨[⟨0, 0, some 10, none, some 10⟩], true, true, true⟩

/-- A frame whose rows arrive in descending date order. -/
def dfUnsorted : DailyDF :=
  ⟨[⟨1, 10, some 20, some 10, none⟩, ⟨0, 8, some 18, some 8, none⟩],
    true, true, false⟩

/-- A two-row out-of-order frame for exercising load_daily's sort. -/
def dfSortW : DailyDF :=
  ⟨[⟨1, 1, some 2, some 3, none⟩, ⟨0, 1, some 4, some 5, none⟩],
    true, true, false⟩

/-- load_daily dfSortW: rows ascending by date, TMEAN the row means. -/
def dfSortWOut : DailyDF :=
  ⟨[⟨0, 1, some 4, some 5, some (9 / 2)⟩, ⟨1, 1, some 2, some 3, some (5 / 2)⟩],
    true, true, true⟩

/-- A frame that already carries a TMEAN column whose value 99 differs from
the mean 15 of its TMAX and TMIN. -/
def dfTrust : DailyDF := ⟨[⟨0, 0, some 10, some 20, some 99⟩], true, true, true⟩

/-- load_daily dfTrust: the pre-supplied TMEAN 99 is overwritten with 15. -/
def dfTrustOut : DailyDF := ⟨[⟨0, 0, some 10, some 20, some 15⟩], true, true, true⟩

/-! ### Helper lemmas about the tally operations -/

lemma lookupCount_bump (t : Tally) (k : String) (v : Nat) (k2 : String) :
    lookupCount (bump t k v) k2
      = lookupCount t k2 + (if k = k2 then v else 0) := by
  induction t with
  | nil =>
    by_cases hk : k = k2 <;> simp [bump, lookupCount, hk]
  | cons p rest ih =>
    obtain ⟨k1, v1⟩ := p
    by_cases h1 : k1 = k
    · subst h1
      simp only [bump, if_pos rfl, lookupCount]
      by_cases hk : k1 = k2 <;> simp [hk] <;> omega
    · simp only [bump, if_neg h1, lookupCount, ih]
      by_cases hk : k1 = k2 <;> simp [hk] <;> omega

lemma lookupCount_mergeTally (vc : Tally) (acc : Tally) (k : String) :
    lookupCount (mergeTally acc vc) k = lookupCount acc k + lookupCount vc k := by
  induction vc generalizing acc with
  | nil => simp [mergeTally, lookupCount]
  | cons p vc ih =>
    obtain ⟨k1, v1⟩ := p
    have hstep : mergeTally acc ((k1, v1) :: vc) = mergeTally (bump acc k1 v1) vc := rfl
    rw [hstep, ih, lookupCount_bump]
    by_cases hk : k1 = k <;> simp [lookupCount, hk] <;> omega

lemma lookupCount_perm {t1 t2 : Tally} (h : t1.Perm t2) (k : String) :
    lookupCount t1 k = lookupCount t2 k := by
  induction h with
  | nil => rfl
  | cons x _ ih => simp [lookupCount, ih]
  | swap x y l => simp [lookupCount]; omega
  | trans _ _ ih1 ih2 => rw [ih1, ih2]

lemma lookupCount_map_nodup (l : List String) (hl : l.Nodup) (g : String → Nat)
    (k : String) :
    lookupCount (l.map (fun k1 => (k1, g k1))) k = if k ∈ l then g k else 0 := by
  induction l with
  | nil => simp [lookupCount]
  | cons a l ih =>
    obtain ⟨ha, hnd⟩ := List.nodup_cons.mp hl
    by_cases hk : a = k
    · subst hk
      simp [lookupCount, ih hnd, ha]
    · simp [lookupCount, ih hnd, hk, Ne.symm hk]

lemma sortDesc_perm (t : Tally) : (sortDesc t).Perm t :=
  (List.reverse_perm _).trans (List.perm_insertionSort countLe t)

lemma lookupCount_valueCounts (c : List (Option String)) (k : String) :
    lookupCount (valueCounts c) k = countOcc k c := by
  unfold valueCounts
  rw [lookupCount_perm (sortDesc_perm _), lookupCount_map_nodup _ (List.nodup_dedup _)]
  by_cases hm : k ∈ (c.filterMap id).dedup
  · simp [hm]
  · have hnc : some k ∉ c := by
      intro hc
      exact hm (List.mem_dedup.mpr (List.mem_filterMap.mpr ⟨some k, hc, rfl⟩))
    simp [hm, countOcc, List.count_eq_zero.mpr hnc]

lemma lookupCount_mergeChunksInto (chunks : List (List (Option String)))
    (acc : Tally) (k : String) :
    lookupCount (mergeChunksInto acc chunks) k
      = lookupCount acc k + countOcc k chunks.flatten := by
  induction chunks generalizing acc with
  | nil => simp [mergeChunksInto, countOcc]
  | cons c cs ih =>
    have hstep : mergeChunksInto acc (c :: cs)
        = mergeChunksInto (mergeTally acc (valueCounts c)) cs := rfl
    rw [hstep, ih, lookupCount_mergeTally, lookupCount_valueCounts]
    simp [countOcc]
    omega

/-! ### Claim theorems -/

/-- Claim C3 (confirmed): for every collection of input chunks, merging the
per-chunk station-name tallies into the running dict by adding counts per key
yields the same station-to-count mapping as computing one tally over the
concatenation of all chunks; null station names are ignored in both (a null
cell is never counted as any concrete name). -/
theorem merged_tally_eq_concat_tally
    (chunks : List (List (Option String))) (k : String) :
    lookupCount (mergeChunksInto [] chunks) k
      = lookupCount (valueCounts chunks.flatten) k := by
  rw [lookupCount_valueCounts, lookupCount_mergeChunksInto]
  simp [lookupCount]

/-- Claim C6 (confirmed): truncating the descending station ranking of any
merged tally to its top k entries yields a prefix of the full ranking, and
the top-(k+1) ranking truncated to k entries equals the top-k ranking. -/
theorem topk_prefix_of_full (counts : Tally) (k : Nat) :
    topK counts k <+: rankStations counts ∧
    (topK counts (k + 1)).take k = topK counts k := by
  constructor
  · exact ⟨(rankStations counts).drop k, List.take_append_drop k (rankStations counts)⟩
  · simp [topK, List.take_take, Nat.min_eq_left (Nat.le_succ k)]

lemma sortDesc_sorted (t : Tally) :
    List.Sorted (fun a b : String × Nat => b.2 ≤ a.2) (sortDesc t) := by
  unfold sortDesc
  exact List.pairwise_reverse.mpr (List.sorted_insertionSort countLe t)

lemma accumFiles_raised_of_bad (bad : CsvFile) (post : List CsvFile)
    (hbad : bad.hasStationCol = false) :
    ∀ (pre : List CsvFile) (acc : Tally),
      (∀ f ∈ pre, f.hasStationCol = true) →
      accumFiles (pre ++ bad :: post) acc = PyResult.raised PyError.valueError := by
  intro pre
  induction pre with
  | nil =>
    intro acc _
    simp [accumFiles, hbad]
  | cons f pre ih =>
    intro acc hpre
    have hf : f.hasStationCol = true := hpre f (List.mem_cons_self f pre)
    simp only [List.cons_append, accumFiles, hf, if_true]
    exact ih _ (fun g hg => hpre g (List.mem_cons_of_mem f hg))

/-- Claim C9 (confirmed): when a readable trip-record source lacks the
start_station_name column, pd.read_csv raises ValueError while constructing
the chunked reader (the schema-mismatch report), before any chunk of that
source is read; the error escapes compute_top20_stations, so no tally that
includes any aggregation from that source is ever produced. The statement
holds for an arbitrary bad file body, showing the result never depends on
the bad source's rows. -/
theorem schema_mismatch_before_aggregation
    (pre : List CsvFile) (bad : CsvFile) (post : List CsvFile)
    (hpre : ∀ f ∈ pre, f.hasStationCol = true)
    (hbad : bad.hasStationCol = false) :
    compute_top20_stations (pre ++ bad :: post)
      = PyResult.raised PyError.valueError := by
  unfold compute_top20_stations
  rw [accumFiles_raised_of_bad bad post hbad pre [] hpre]

/-- Witness for C9: a concrete run with one well-formed file followed by a
file without the station column. -/
theorem schema_mismatch_before_aggregation_w :
    compute_top20_stations
        [⟨true, [[some "A"]]⟩, ⟨false, [[some "Z"], [some "Q"]]⟩]
      = PyResult.raised PyError.valueError :=
  schema_mismatch_before_aggregation
    [⟨true, [[some "A"]]⟩] ⟨false, [[some "Z"], [some "Q"]]⟩ []
    (by decide) rfl

/-- Claim C10 (confirmed): the table compute_top20_stations returns has at
most 20 entries, so the caller's .head(show_top_n) also yields at most 20
entries, and for any requested n of at least 20 (the UI slider permits up to
30) it returns exactly the same 20-entry table. -/
theorem top20_cap (files : List CsvFile) (out : Tally)
    (h : compute_top20_stations files = PyResult.val out) :
    out.length ≤ 20 ∧ (∀ n, (show_top_n out n).length ≤ 20) ∧
    (∀ n, 20 ≤ n → show_top_n out n = out) := by
  unfold compute_top20_stations at h
  cases hacc : accumFiles files [] with
  | val counts =>
    rw [hacc] at h
    simp only [PyResult.val.injEq] at h
    subst h
    have hlen : ((sortDesc counts).take 20).length ≤ 20 := List.length_take_le 20 _
    refine ⟨hlen, fun n => ?_, fun n hn => ?_⟩
    · exact (List.length_take_le' n _).trans hlen
    · exact List.take_of_length_le (hlen.trans hn)
  | raised e =>
    rw [hacc] at h
    cases h

/-- Witness for C10: a concrete run whose ranking is shorter than 20. -/
theorem top20_cap_w :
    ([("A", 2), ("B", 1)] : Tally).length ≤ 20 ∧
    (∀ n, (show_top_n [("A", 2), ("B", 1)] n).length ≤ 20) ∧
    (∀ n, 20 ≤ n → show_top_n [("A", 2), ("B", 1)] n = [("A", 2), ("B", 1)]) :=
  top20_cap [⟨true, [[some "A", some "B", some "A"]]⟩] [("A", 2), ("B", 1)]
    (by decide)

/-- Claim C8 (counterexample): station A is tallied before station C (A is
first-encountered in the running dict, both end with count 5), yet the
returned ranking lists C before A: pandas sort_values(ascending=False)
reverses a stable ascending argsort, so equal counts come out in reverse
insertion order, not first-encountered order. -/
theorem ranking_tie_order_cex :
    compute_top20_stations
        [⟨true, [List.replicate 5 (some "A"), List.replicate 5 (some "C"), [some "B"]]⟩]
      = PyResult.val [("C", 5), ("A", 5), ("B", 1)] := by
  decide

/-- Claim C8 (amended): the station-rank output is sorted by ride count
descending; the order among stations with equal counts is not the
first-encountered (insertion) order — on small inputs it is its reverse —
and is left unspecified, matching the tie-break ambiguity the spec itself
accepts. -/
theorem ranking_sorted_amended (files : List CsvFile) (out : Tally)
    (h : compute_top20_stations files = PyResult.val out) :
    List.Sorted (fun a b : String × Nat => b.2 ≤ a.2) out := by
  unfold compute_top20_stations at h
  cases hacc : accumFiles files [] with
  | val counts =>
    rw [hacc] at h
    simp only [PyResult.val.injEq] at h
    subst h
    exact List.Pairwise.sublist (List.take_sublist 20 _) (sortDesc_sorted counts)
  | raised e =>
    rw [hacc] at h
    cases h

/-- Witness for C8 (amended): the amended sortedness at a concrete run. -/
theorem ranking_sorted_amended_w :
    List.Sorted (fun a b : String × Nat => b.2 ≤ a.2)
      [("B", 3), ("A", 2)] :=
  ranking_sorted_amended [⟨true, [[some "A", some "B", some "A"], [some "B", some "B"]]⟩]
    [("B", 3), ("A", 2)] (by decide)

/-! ### Helper lemmas about the daily-series columns -/

lemma colTmax_map_tmean (g : DailyRow → Option ℚ) (l : List DailyRow) :
    colTmax (l.map (fun r => { r with tmean := g r })) = colTmax l := by
  unfold colTmax
  rw [List.map_map]
  rfl

lemma colTmin_map_tmean (g : DailyRow → Option ℚ) (l : List DailyRow) :
    colTmin (l.map (fun r => { r with tmean := g r })) = colTmin l := by
  unfold colTmin
  rw [List.map_map]
  rfl

lemma colTmean_map_tmean (g : DailyRow → Option ℚ) (l : List DailyRow) :
    colTmean (l.map (fun r => { r with tmean := g r })) = l.map g := by
  unfold colTmean
  rw [List.map_map]
  rfl

lemma colDate_map_tmean (g : DailyRow → Option ℚ) (l : List DailyRow) :
    colDate (l.map (fun r => { r with tmean := g r })) = colDate l := by
  unfold colDate
  rw [List.map_map]
  rfl

lemma colTmax_map_tmin (g : DailyRow → Option ℚ) (l : List DailyRow) :
    colTmax (l.map (fun r => { r with tmin := g r })) = colTmax l := by
  unfold colTmax
  rw [List.map_map]
  rfl

lemma colTmin_map_tmax (g : DailyRow → Option ℚ) (l : List DailyRow) :
    colTmin (l.map (fun r => { r with tmax := g r })) = colTmin l := by
  unfold colTmin
  rw [List.map_map]
  rfl

lemma colTmax_map_div (f : ℚ → ℚ) (l : List DailyRow) :
    colTmax (l.map (fun r => { r with tmax := r.tmax.map f }))
      = (colTmax l).map (Option.map f) := by
  unfold colTmax
  rw [List.map_map, List.map_map]
  rfl

lemma colTmin_map_div (f : ℚ → ℚ) (l : List DailyRow) :
    colTmin (l.map (fun r => { r with tmin := r.tmin.map f }))
      = (colTmin l).map (Option.map f) := by
  unfold colTmin
  rw [List.map_map, List.map_map]
  rfl

lemma colTmax_repairTmin (b : Bool) (l : List DailyRow) :
    colTmax (repairTmin b l) = colTmax l := by
  unfold repairTmin
  split
  · exact colTmax_map_tmin _ l
  · rfl

lemma colTmin_repairTmax (b : Bool) (l : List DailyRow) :
    colTmin (repairTmax b l) = colTmin l := by
  unfold repairTmax
  split
  · exact colTmin_map_tmax _ l
  · rfl

lemma colTmax_repairTmax (b : Bool) (l : List DailyRow) :
    colTmax (repairTmax b l)
      = if b && needsRepair (colTmax l)
        then (colTmax l).map (Option.map (fun x => x / 10))
        else colTmax l := by
  unfold repairTmax
  by_cases hc : (b && needsRepair (colTmax l)) = true
  · simp only [hc, if_true]
    exact colTmax_map_div _ l
  · simp only [Bool.not_eq_true] at hc
    simp only [hc, Bool.false_eq_true, if_false]

lemma colTmin_repairTmin (b : Bool) (l : List DailyRow) :
    colTmin (repairTmin b l)
      = if b && needsRepair (colTmin l)
        then (colTmin l).map (Option.map (fun x => x / 10))
        else colTmin l := by
  unfold repairTmin
  by_cases hc : (b && needsRepair (colTmin l)) = true
  · simp only [hc, if_true]
    exact colTmin_map_div _ l
  · simp only [Bool.not_eq_true] at hc
    simp only [hc, Bool.false_eq_true, if_false]

lemma load_daily_val_inv (df : DailyDF) (out : DailyDF)
    (h : load_daily df = PyResult.val out) :
    df.hasTmax = true ∧ df.hasTmin = true ∧
    out = ⟨(repairTmin df.hasTmin (repairTmax df.hasTmax (sortByDate df.rows))).map
             (fun r => { r with tmean := rowMean r.tmax r.tmin }),
           true, true, true⟩ := by
  unfold load_daily at h
  by_cases hb : (df.hasTmax && df.hasTmin) = true
  · obtain ⟨h1, h2⟩ := Bool.and_eq_true_iff.mp hb
    rw [if_pos hb] at h
    simp only [PyResult.val.injEq] at h
    refine ⟨h1, h2, ?_⟩
    rw [← h, h1, h2]
  · rw [if_neg hb] at h
    cases h

lemma sorted_dateLe_map (f : DailyRow → DailyRow)
    (hf : ∀ r, (f r).date = r.date) {l : List DailyRow}
    (h : List.Sorted dateLe l) : List.Sorted dateLe (l.map f) := by
  refine List.Pairwise.map f (fun a b hab => ?_) h
  unfold dateLe at hab ⊢
  rw [hf, hf]
  exact hab

lemma repairTmax_sorted (b : Bool) (l : List DailyRow)
    (h : List.Sorted dateLe l) : List.Sorted dateLe (repairTmax b l) := by
  unfold repairTmax
  split
  · exact sorted_dateLe_map
      (fun r => { r with tmax := r.tmax.map (fun x => x / 10) }) (fun r => rfl) h
  · exact h

lemma repairTmin_sorted (b : Bool) (l : List DailyRow)
    (h : List.Sorted dateLe l) : List.Sorted dateLe (repairTmin b l) := by
  unfold repairTmin
  split
  · exact sorted_dateLe_map
      (fun r => { r with tmin := r.tmin.map (fun x => x / 10) }) (fun r => rfl) h
  · exact h

/-- Claim C4 (counterexample): load_daily_small is also a daily-series
normalizer (the spec's DailySeriesNormalizer covers both variants), yet it
never sorts: feeding it rows with dates in the order [1, 0] returns rows
still dated [1, 0], which is not ascending. -/
theorem daily_order_cex :
    colDate (load_daily_small dfUnsorted).rows = [1, 0] ∧
    ¬ List.Sorted dateLe (load_daily_small dfUnsorted).rows := by
  have hrows : colDate (load_daily_small dfUnsorted).rows = [1, 0] := by
    simp [load_daily_small, dfUnsorted, jointNeedsRepair, needsRepair, maxAbsOpt,
      colTmax, colTmin, colDate, rowMean]
    norm_num
  refine ⟨hrows, fun hs => ?_⟩
  rcases hcase : (load_daily_small dfUnsorted).rows with _ | ⟨r1, rest⟩
  · rw [hcase] at hrows
    simp [colDate] at hrows
  · rcases rest with _ | ⟨r2, rest2⟩
    · rw [hcase] at hrows
      simp [colDate] at hrows
    · rw [hcase] at hs
      have h12 : dateLe r1 r2 := (List.pairwise_cons.mp hs).1 r2 (by simp)
      rw [hcase] at hrows
      simp [colDate] at hrows
      obtain ⟨hd1, hd2, -⟩ := hrows
      unfold dateLe at h12
      rw [hd1, hd2] at h12
      omega

/-- Claim C4 (amended): load_daily sorts its rows ascending by date, so its
output is non-decreasing by date regardless of input order; load_daily_small
performs no sort and returns its rows in the input order (its output is
ascending only when the input already was). -/
theorem daily_order_amended :
    (∀ df out, load_daily df = PyResult.val out →
        List.Sorted dateLe out.rows) ∧
    (∀ df, colDate (load_daily_small df).rows = colDate df.rows) := by
  constructor
  · intro df out h
    obtain ⟨h1, h2, rfl⟩ := load_daily_val_inv df out h
    exact sorted_dateLe_map
      (fun r => { r with tmean := rowMean r.tmax r.tmin }) (fun r => rfl)
      (repairTmin_sorted _ _ (repairTmax_sorted _ _
        (List.sorted_insertionSort dateLe df.rows)))
  · intro df
    unfold load_daily_small
    split
    · split
      · exact colDate_map_tmean _ df.rows
      · exact colDate_map_tmean _ df.rows
    · rfl

/-- Witness for C4 (amended): load_daily on a concrete out-of-order frame
yields date-sorted rows, and load_daily_small on the same frame keeps the
input date order. -/
theorem daily_order_amended_w :
    List.Sorted dateLe dfSortWOut.rows ∧
    colDate (load_daily_small dfSortW).rows = colDate dfSortW.rows :=
  ⟨daily_order_amended.1 dfSortW dfSortWOut
      (by
        simp [load_daily, dfSortW, dfSortWOut, sortByDate, List.insertionSort,
          List.orderedInsert, dateLe, repairTmax, repairTmin, needsRepair,
          maxAbsOpt, colTmax, colTmin, rowMean]
        norm_num),
    daily_order_amended.2 dfSortW⟩

/-- Claim C1 (counterexample): in the load_daily_small variant of the daily
series load, the TMAX column of dfRepair has max abs 210 > 200, yet the
loaded frame still carries 210 — no value of the column was divided by 10.
load_daily_small never alters the temperature columns; it only divides the
derived TMEAN by 10, and decides that with the joint max of both columns
rather than per column. -/
theorem unit_repair_cex :
    needsRepair (colTmax dfRepair.rows) = true ∧
    colTmax (load_daily_small dfRepair).rows = [some 210] := by
  constructor
  · simp [needsRepair, maxAbsOpt, colTmax, dfRepair]
    norm_num
  · simp [load_daily_small, dfRepair, jointNeedsRepair, needsRepair, maxAbsOpt,
      colTmax, colTmin, rowMean]
    norm_num

/-- Claim C1 (amended): the per-column unit repair as claimed holds for
load_daily — after the sort, a temperature column whose own max abs exceeds
200 has every value divided by exactly 10, and a column whose max abs does
not exceed 200 is unaltered, each column judged independently. In
load_daily_small the TMAX and TMIN columns are never altered at all (the
joint unit check there only rescales the derived TMEAN). -/
theorem unit_repair_amended :
    (∀ df out, load_daily df = PyResult.val out →
       ((needsRepair (colTmax (sortByDate df.rows)) = true →
           colTmax out.rows
             = (colTmax (sortByDate df.rows)).map (Option.map (fun x => x / 10))) ∧
        (needsRepair (colTmax (sortByDate df.rows)) = false →
           colTmax out.rows = colTmax (sortByDate df.rows)) ∧
        (needsRepair (colTmin (sortByDate df.rows)) = true →
           colTmin out.rows
             = (colTmin (sortByDate df.rows)).map (Option.map (fun x => x / 10))) ∧
        (needsRepair (colTmin (sortByDate df.rows)) = false →
           colTmin out.rows = colTmin (sortByDate df.rows)))) ∧
    (∀ df, colTmax (load_daily_small df).rows = colTmax df.rows ∧
           colTmin (load_daily_small df).rows = colTmin df.rows) := by
  constructor
  · intro df out h
    obtain ⟨h1, h2, rfl⟩ := load_daily_val_inv df out h
    have htmax : colTmax
        ((repairTmin df.hasTmin (repairTmax df.hasTmax (sortByDate df.rows))).map
          (fun r => { r with tmean := rowMean r.tmax r.tmin }))
        = if needsRepair (colTmax (sortByDate df.rows))
          then (colTmax (sortByDate df.rows)).map (Option.map (fun x => x / 10))
          else colTmax (sortByDate df.rows) := by
      rw [colTmax_map_tmean, colTmax_repairTmin, colTmax_repairTmax, h1]
      simp only [Bool.true_and]
    have htmin : colTmin
        ((repairTmin df.hasTmin (repairTmax df.hasTmax (sortByDate df.rows))).map
          (fun r => { r with tmean := rowMean r.tmax r.tmin }))
        = if needsRepair (colTmin (sortByDate df.rows))
          then (colTmin (sortByDate df.rows)).map (Option.map (fun x => x / 10))
          else colTmin (sortByDate df.rows) := by
      rw [colTmin_map_tmean, colTmin_repairTmin, colTmin_repairTmax, h2]
      simp only [Bool.true_and]
    refine ⟨fun hc => ?_, fun hc => ?_, fun hc => ?_, fun hc => ?_⟩
    · rw [htmax, if_pos hc]
    · rw [htmax, hc]
      simp only [Bool.false_eq_true, if_false]
    · rw [htmin, if_pos hc]
    · rw [htmin, hc]
      simp only [Bool.false_eq_true, if_false]
  · intro df
    unfold load_daily_small
    split
    · constructor
      · split
        · exact colTmax_map_tmean _ df.rows
        · exact colTmax_map_tmean _ df.rows
      · split
        · exact colTmin_map_tmean _ df.rows
        · exact colTmin_map_tmean _ df.rows
    · exact ⟨rfl, rfl⟩

/-- Witness for C1 (amended): on dfRepair, load_daily divides the TMAX
column (max abs 210) by 10 and leaves the TMIN column (max abs 50)
unaltered, while load_daily_small leaves both columns unaltered. -/
theorem unit_repair_amended_w :
    colTmax dfRepairOut.rows
      = (colTmax (sortByDate dfRepair.rows)).map (Option.map (fun x => x / 10)) ∧
    colTmin dfRepairOut.rows = colTmin (sortByDate dfRepair.rows) ∧
    colTmax (load_daily_small dfRepair).rows = colTmax dfRepair.rows := by
  have hEq : load_daily dfRepair = PyResult.val dfRepairOut := by
    simp [load_daily, dfRepair, dfRepairOut, sortByDate, List.insertionSort,
      List.orderedInsert, repairTmax, repairTmin, needsRepair, maxAbsOpt,
      colTmax, colTmin, rowMean]
    norm_num
  have hT : needsRepair (colTmax (sortByDate dfRepair.rows)) = true := by
    simp [needsRepair, maxAbsOpt, colTmax, sortByDate, List.insertionSort,
      List.orderedInsert, dfRepair]
    norm_num
  have hF : needsRepair (colTmin (sortByDate dfRepair.rows)) = false := by
    simp [needsRepair, maxAbsOpt, colTmin, sortByDate, List.insertionSort,
      List.orderedInsert, dfRepair]
    norm_num
  exact ⟨(unit_repair_amended.1 dfRepair dfRepairOut hEq).1 hT,
    (unit_repair_amended.1 dfRepair dfRepairOut hEq).2.2.2 hF,
    (unit_repair_amended.2 dfRepair).1⟩

/-- Claim C2 (counterexample): in load_daily's output on dfSkipna, the row
has tmax present (10) and tmin absent, yet tmean is some 10, not absent:
pandas mean(axis=1) skips NaN entries by default, so a row with exactly one
temperature present gets that value as its mean. The claim's clause that
tmean is absent whenever either input is absent is false. -/
theorem tmean_skipna_cex :
    load_daily dfSkipna = PyResult.val dfSkipnaOut := by
  simp [load_daily, dfSkipna, dfSkipnaOut, sortByDate, List.insertionSort,
    List.orderedInsert, repairTmax, repairTmin, needsRepair, maxAbsOpt,
    colTmax, colTmin, rowMean]
  norm_num

/-- Claim C2 (amended): in load_daily's output, tmean is the NaN-skipping
row mean of the (possibly unit-repaired) tmax and tmin: the arithmetic mean
when both are present, the present value when exactly one is present, and
absent only when both are absent (a pre-supplied tmean never survives, as
load_daily overwrites the column). In load_daily_small, when no tmean column
is supplied and both temperature columns exist, the tmean column is the same
NaN-skipping row mean of the unaltered inputs, divided by 10 when the joint
max abs of the two columns exceeds 200. -/
theorem tmean_rowmean_amended :
    (∀ df out, load_daily df = PyResult.val out →
       ∀ r ∈ out.rows,
         (∀ a b, r.tmax = some a → r.tmin = some b →
            r.tmean = some ((a + b) / 2)) ∧
         (∀ a, r.tmax = some a → r.tmin = none → r.tmean = some a) ∧
         (∀ b, r.tmax = none → r.tmin = some b → r.tmean = some b) ∧
         (r.tmax = none → r.tmin = none → r.tmean = none)) ∧
    (∀ df, df.hasTmean = false → df.hasTmax = true → df.hasTmin = true →
       colTmean (load_daily_small df).rows
         = if jointNeedsRepair df.rows
           then df.rows.map (fun r => (rowMean r.tmax r.tmin).map (fun x => x / 10))
           else df.rows.map (fun r => rowMean r.tmax r.tmin)) := by
  constructor
  · intro df out h r hr
    obtain ⟨h1, h2, rfl⟩ := load_daily_val_inv df out h
    obtain ⟨s, hs, rfl⟩ := List.mem_map.mp hr
    refine ⟨fun a b ha hb => ?_, fun a ha hb => ?_, fun b ha hb => ?_,
      fun ha hb => ?_⟩
    · show rowMean s.tmax s.tmin = some ((a + b) / 2)
      rw [show s.tmax = some a from ha, show s.tmin = some b from hb]
      rfl
    · show rowMean s.tmax s.tmin = some a
      rw [show s.tmax = some a from ha, show s.tmin = none from hb]
      rfl
    · show rowMean s.tmax s.tmin = some b
      rw [show s.tmax = none from ha, show s.tmin = some b from hb]
      rfl
    · show rowMean s.tmax s.tmin = none
      rw [show s.tmax = none from ha, show s.tmin = none from hb]
      rfl
  · intro df h0 h1 h2
    by_cases hj : jointNeedsRepair df.rows = true
    · simp only [load_daily_small, h0, h1, h2, hj, Bool.not_false, Bool.true_and,
        Bool.and_self, if_true]
      exact colTmean_map_tmean _ df.rows
    · simp only [Bool.not_eq_true] at hj
      simp only [load_daily_small, h0, h1, h2, hj, Bool.not_false, Bool.true_and,
        Bool.and_self, Bool.false_eq_true, if_true, if_false]
      exact colTmean_map_tmean _ df.rows

/-- Witness for C2 (amended): both branches at concrete inputs — on
dfSkipnaOut's row the mean equals the present tmax, and on dfUnsorted
(joint max abs 20, no repair) the tmean column is the plain row mean. -/
theorem tmean_rowmean_amended_w :
    (∀ a, (⟨0, 0, some 10, none, some 10⟩ : DailyRow).tmax = some a →
       (⟨0, 0, some 10, none, some 10⟩ : DailyRow).tmin = none →
       (⟨0, 0, some 10, none, some 10⟩ : DailyRow).tmean = some a) ∧
    colTmean (load_daily_small dfUnsorted).rows
      = (if jointNeedsRepair dfUnsorted.rows
         then dfUnsorted.rows.map
             (fun r => (rowMean r.tmax r.tmin).map (fun x => x / 10))
         else dfUnsorted.rows.map (fun r => rowMean r.tmax r.tmin)) := by
  have hEq : load_daily dfSkipna = PyResult.val dfSkipnaOut := by
    simp [load_daily, dfSkipna, dfSkipnaOut, sortByDate, List.insertionSort,
      List.orderedInsert, repairTmax, repairTmin, needsRepair, maxAbsOpt,
      colTmax, colTmin, rowMean]
    norm_num
  have hmem : (⟨0, 0, some 10, none, some 10⟩ : DailyRow) ∈ dfSkipnaOut.rows := by
    simp [dfSkipnaOut]
  exact ⟨(tmean_rowmean_amended.1 dfSkipna dfSkipnaOut hEq _ hmem).2.1,
    tmean_rowmean_amended.2 dfUnsorted rfl rfl rfl⟩

/-- Claim C7 (counterexample): dfTrust supplies a TMEAN column holding 99,
but load_daily overwrites it: the output row carries TMEAN 15, the mean of
TMAX 10 and TMIN 20. The pre-supplied column is not trusted as-is in this
loader. -/
theorem tmean_trust_cex :
    load_daily dfTrust = PyResult.val dfTrustOut := by
  simp [load_daily, dfTrust, dfTrustOut, sortByDate, List.insertionSort,
    List.orderedInsert, repairTmax, repairTmin, needsRepair, maxAbsOpt,
    colTmax, colTmin, rowMean]
  norm_num

/-- Claim C7 (amended): load_daily_small trusts a pre-supplied tmean column
(when a tmean column exists it returns the frame completely unchanged);
load_daily instead always recomputes the tmean column as the row mean of the
repaired tmax and tmin, overwriting any pre-supplied values. -/
theorem tmean_trust_amended :
    (∀ df, df.hasTmean = true → load_daily_small df = df) ∧
    (∀ df out, load_daily df = PyResult.val out →
       colTmean out.rows = out.rows.map (fun r => rowMean r.tmax r.tmin)) := by
  constructor
  · intro df h
    unfold load_daily_small
    simp [h]
  · intro df out h
    obtain ⟨h1, h2, rfl⟩ := load_daily_val_inv df out h
    rw [colTmean_map_tmean, List.map_map]
    rfl

/-- Witness for C7 (amended): load_daily_small leaves dfTrust untouched, and
load_daily's output on dfTrust has its tmean column equal to the row means. -/
theorem tmean_trust_amended_w :
    load_daily_small dfTrust = dfTrust ∧
    colTmean dfTrustOut.rows
      = dfTrustOut.rows.map (fun r => rowMean r.tmax r.tmin) := by
  have hEq : load_daily dfTrust = PyResult.val dfTrustOut := by
    simp [load_daily, dfTrust, dfTrustOut, sortByDate, List.insertionSort,
      List.orderedInsert, repairTmax, repairTmin, needsRepair, maxAbsOpt,
      colTmax, colTmin, rowMean]
    norm_num
  exact ⟨tmean_trust_amended.1 dfTrust rfl,
    tmean_trust_amended.2 dfTrust dfTrustOut hEq⟩

/-- Claim C5 (counterexample): called on a filesystem where the source path
does not exist, both cited loaders terminate with an uncaught
FileNotFoundError propagating out of the component (PyResult.raised models
the exception escaping the function). Neither returns an explicit
"source unavailable" error value to its caller: no code in either loader
catches the exception or produces an error result. -/
theorem source_missing_cex :
    load_daily_fs (fun _ => none) "citibike_weather_2022.csv"
      = PyResult.raised PyError.fileNotFoundError ∧
    load_stations_small (fun _ => none) "top_stations_sample.csv"
      = PyResult.raised PyError.fileNotFoundError :=
  ⟨rfl, rfl⟩

/-- Claim C5 (amended): on a missing source the loaders raise (pd.read_csv's
FileNotFoundError escapes them) rather than returning an error result; the
program avoids the crash one level up — each calling section checks that the
path exists first and, when it does not, renders an informational
placeholder without ever invoking the loader. -/
theorem source_missing_amended :
    (∀ fs path, fs path = none →
        load_daily_fs fs path = PyResult.raised PyError.fileNotFoundError) ∧
    (∀ fs path, fs path = none →
        load_stations_small fs path = PyResult.raised PyError.fileNotFoundError) ∧
    (∀ fs path, fs path = none →
        dualAxisSection fs path = PyResult.val SectionView.info) ∧
    (∀ fs path n, fs path = none →
        topStationsSection fs path n = PyResult.val SectionView.info) := by
  refine ⟨fun fs path h => ?_, fun fs path h => ?_, fun fs path h => ?_,
    fun fs path n h => ?_⟩
  · unfold load_daily_fs
    rw [h]
  · unfold load_stations_small
    rw [h]
  · unfold dualAxisSection
    rw [h]
  · unfold topStationsSection
    rw [h]

/-- Witness for C5 (amended): concrete empty filesystems — the loaders raise
and the guarded caller sections render the placeholder instead. -/
theorem source_missing_amended_w :
    load_daily_fs (fun _ => none) "daily.csv"
      = PyResult.raised PyError.fileNotFoundError ∧
    dualAxisSection (fun _ => none) "daily.csv" = PyResult.val SectionView.info ∧
    topStationsSection (fun _ => none) "stations.csv" 20
      = PyResult.val SectionView.info :=
  ⟨source_missing_amended.1 (fun _ => none) "daily.csv" rfl,
    source_missing_amended.2.2.1 (fun _ => none) "daily.csv" rfl,
    source_missing_amended.2.2.2 (fun _ => none) "stations.csv" 20 rfl⟩

end Citibike
